import Mathlib

/-!
Verification development for the pxt-phoenix browser dashboard.

The repository consists of two alternative front-end glue files
(`app.js` and an unnamed minimal glue file, here called `part001`)
and a README.  The aggregation engine `engine_pyodide.py` itself is
not part of the repository (the file written to the in-browser
filesystem is the placeholder string
`REPLACE_WITH_ENGINE_CODE_IF_EMBEDDING`), so the engine is modelled
from the specification where a claim depends on it; the front-end
behaviour is translated directly from the JavaScript sources.
-/

namespace Phoenix

/-- Modelled from the spec: one parsed record row (AttendanceRecord /
SwapRecord / VetVtoRecord share these fields per section 3 of the spec:
employee id, department id, management area id, employment type, work
date, skip date for swaps, a settings-driven classification marker, a
presence flag and an acceptance flag). -/
structure RawRecord where
  eid : String
  dept_id : String
  management_area_id : String
  employment_type : String
  work_date : String
  skip_date : String
  marker : String
  present : Bool
  accepted : Bool
deriving DecidableEq, Repr

/-- Modelled from the spec: the SettingsMapping loaded from
`settings.json` — department-code-to-label mappings plus classification
markers for VET / VTO / swap detection. -/
structure Settings where
  deptMap : List (String × String)
  vetMarkers : List String
  vtoMarkers : List String
  swapMarkers : List String
deriving DecidableEq, Repr

/-- Modelled from the spec: look a raw department code up in the
settings mapping; with no settings document every code is unmapped. -/
def lookupDept : Option Settings → String → Option String
  | none, _ => none
  | some st, code => (st.deptMap.find? (fun p => p.1 == code)).map (fun p => p.2)

/-- Modelled from the spec: normalize a department code through the
settings mapping, bucketing unmapped codes as "unknown". -/
def normalizeDept (s : Option Settings) (code : String) : String :=
  (lookupDept s code).getD "unknown"

/-- Modelled from the spec: the five classification buckets of section 8
(regular, VET, VTO, swap, unknown). -/
inductive Category
  | regular
  | vet
  | vto
  | swap
  | unknown
deriving DecidableEq, Repr

/-- Modelled from the spec: settings-driven marker classification of a
mapped record into regular / VET / VTO / swap. -/
def classifyMarker (st : Settings) (m : String) : Category :=
  if st.vetMarkers.contains m then Category.vet
  else if st.vtoMarkers.contains m then Category.vto
  else if st.swapMarkers.contains m then Category.swap
  else Category.regular

/-- Modelled from the spec: classify one record.  A record whose
department code is absent from the settings mapping (in particular when
the settings document itself is absent) goes to the unknown bucket;
otherwise the settings markers decide the category. -/
def classify (s : Option Settings) (r : RawRecord) : Category :=
  match s with
  | none => Category.unknown
  | some st =>
    match lookupDept (some st) r.dept_id with
    | none => Category.unknown
    | some _ => classifyMarker st r.marker

/-- Modelled from the spec: restrict to records whose work date equals
the target date when one is supplied; the empty string means no target
date was supplied (default-date policy is an open question in the spec,
modelled as no filtering). -/
def dateFilter (td : String) (rows : List RawRecord) : List RawRecord :=
  if td == "" then rows else rows.filter (fun r => r.work_date == td)

/-- Modelled from the spec: the sub-list of rows classified into one
category. -/
def bucket (s : Option Settings) (rows : List RawRecord) (c : Category) : List RawRecord :=
  rows.filter (fun r => classify s r == c)

/-- Modelled from the spec: the regular-attendance rows for the target
date. -/
def regularRows (s : Option Settings) (rows : List RawRecord) (td : String) : List RawRecord :=
  bucket s (dateFilter td rows) Category.regular

/-- Modelled from the spec: the department keys of the summary — the
distinct normalized department labels occurring among the target-date
rows. -/
def summaryDepts (s : Option Settings) (rows : List RawRecord) (td : String) : List String :=
  ((dateFilter td rows).map (fun r => normalizeDept s r.dept_id)).dedup

/-- Modelled from the spec: regular expected headcount of one
department — the number of regular-attendance rows normalized to it. -/
def regularExpected (s : Option Settings) (rows : List RawRecord) (td : String)
    (d : String) : Nat :=
  (regularRows s rows td).countP (fun r => normalizeDept s r.dept_id == d)

/-- Modelled from the spec: regular present headcount of one
department — the number of presence-flagged regular-attendance rows
normalized to it. -/
def regularPresent (s : Option Settings) (rows : List RawRecord) (td : String)
    (d : String) : Nat :=
  (regularRows s rows td).countP (fun r => normalizeDept s r.dept_id == d && r.present)

/-- Modelled from the spec: the per-department aggregate counts of a
DepartmentSummary row (regular expected/present with the AMZN/TEMP
employment-type split, swap-out, swap-in expected/present, VET
accept/present, VTO accept). -/
structure DeptCounts where
  regular_expected : Nat
  regular_present : Nat
  regular_expected_AMZN : Nat
  regular_present_AMZN : Nat
  regular_expected_TEMP : Nat
  regular_present_TEMP : Nat
  swap_out : Nat
  swap_in_expected : Nat
  swap_in_present : Nat
  vet_accept : Nat
  vet_present : Nat
  vto_accept : Nat
deriving DecidableEq, Repr

/-- Modelled from the spec: assemble the summary counts of one
department (swap-out counts swaps skipping the target date, swap-in
counts swaps working the target date, per the example scenario of
section 8). -/
def deptCounts (s : Option Settings) (rows : List RawRecord) (td : String)
    (d : String) : DeptCounts :=
  let reg := regularRows s rows td
  let mine := reg.filter (fun r => normalizeDept s r.dept_id == d)
  let vets := (bucket s (dateFilter td rows) Category.vet).filter
    (fun r => normalizeDept s r.dept_id == d)
  let vtos := (bucket s (dateFilter td rows) Category.vto).filter
    (fun r => normalizeDept s r.dept_id == d)
  let sw := (bucket s rows Category.swap).filter (fun r => normalizeDept s r.dept_id == d)
  { regular_expected := regularExpected s rows td d
    regular_present := regularPresent s rows td d
    regular_expected_AMZN := (mine.filter (fun r => r.employment_type == "AMZN")).length
    regular_present_AMZN :=
      (mine.filter (fun r => r.employment_type == "AMZN" && r.present)).length
    regular_expected_TEMP := (mine.filter (fun r => r.employment_type == "TEMP")).length
    regular_present_TEMP :=
      (mine.filter (fun r => r.employment_type == "TEMP" && r.present)).length
    swap_out := (sw.filter (fun r => r.skip_date == td)).length
    swap_in_expected := (sw.filter (fun r => r.work_date == td)).length
    swap_in_present := (sw.filter (fun r => r.work_date == td && r.present)).length
    vet_accept := (vets.filter (fun r => r.accepted)).length
    vet_present := (vets.filter (fun r => r.present)).length
    vto_accept := (vtos.filter (fun r => r.accepted)).length }

/-- Modelled from the spec and README: the BuildResult shape
`generated_at` / `dept_summary` / `presence_map` / `vet_vto` / `swaps`
(swap lists: out, in-expected, in-present). -/
structure BuildResult where
  generated_at : String
  dept_summary : List (String × DeptCounts)
  presence_map : List (String × List String)
  vet_vto : List RawRecord
  swaps : List RawRecord × List RawRecord × List RawRecord
deriving DecidableEq, Repr

/-- Concatenate the row sets of all uploaded files. -/
def allRows (files : List (String × List RawRecord)) : List RawRecord :=
  (files.map (fun f => f.2)).flatten

/-- Modelled from the spec: the aggregation engine entry point.  The
`now` argument is the wall-clock reading at build time that the engine
stamps into `generated_at`; everything else is a pure function of the
files, the settings and the target date. -/
def build_all (files : List (String × List RawRecord)) (settings : Option Settings)
    (targetDate : String) (now : String) : BuildResult :=
  let rows := allRows files
  let dated := dateFilter targetDate rows
  let sw := bucket settings rows Category.swap
  { generated_at := now
    dept_summary := (summaryDepts settings rows targetDate).map
      (fun d => (d, deptCounts settings rows targetDate d))
    presence_map := (summaryDepts settings rows targetDate).map
      (fun d => (d, ((regularRows settings rows targetDate).filter
        (fun r => normalizeDept settings r.dept_id == d && r.present)).map
          (fun r => r.eid)))
    vet_vto := bucket settings dated Category.vet ++ bucket settings dated Category.vto
    swaps := (sw.filter (fun r => r.skip_date == targetDate),
              sw.filter (fun r => r.work_date == targetDate),
              sw.filter (fun r => r.work_date == targetDate && r.present)) }

/-! Front-end glue, translated from `src/app.js` and the unnamed
minimal glue file (`src/unnamed/part_001`). -/

/-- The three arguments of the `build_all` contract, used to record the
textual argument order of each front-end call site. -/
inductive BuildArg
  | files
  | settings
  | targetDate
deriving DecidableEq, Repr

/-- Argument order of the `build(files, settings, targetDate)` contract
in the spec. -/
def contractOrder : List BuildArg :=
  [BuildArg.files, BuildArg.settings, BuildArg.targetDate]

/-- Argument order of the call `eng.build_all(files_py, target_date_py,
settings_py)` in the `app.js` build handler. -/
def appJs_callOrder : List BuildArg :=
  [BuildArg.files, BuildArg.targetDate, BuildArg.settings]

/-- Argument order of the call `build_all(JS_FILE_MAP.to_py(),
JS_SETTINGS.to_py(), JS_TARGET_DATE)` in the minimal glue file. -/
def part001_callOrder : List BuildArg :=
  [BuildArg.files, BuildArg.settings, BuildArg.targetDate]

/-- Modelled from the spec and README: the five top-level keys of the
engine result dict. -/
def buildResultKeys : List String :=
  ["generated_at", "dept_summary", "presence_map", "vet_vto", "swaps"]

/-- Python dict key assignment `d[k] = v` at the level of key lists:
appends the key when it is new. -/
def setKey (ks : List String) (k : String) : List String :=
  if k ∈ ks then ks else ks ++ [k]

/-- Top-level keys of `_result` after the `app.js` build handler runs
`_result["engine_loaded"] = True` and `_result["engine_version"] =
_result.get("engine_version", ...)` on the engine result, before
`json.dumps` hands it to the consumer. -/
def appJs_resultKeys (engineKeys : List String) : List String :=
  setKey (setKey engineKeys "engine_loaded") "engine_version"

/-- Top-level keys the minimal glue file hands to its renderers: `res`
is serialized by `json.dumps(res)` unchanged. -/
def part001_consumedKeys (engineKeys : List String) : List String :=
  engineKeys

/-- Outcome of the `fetch("settings.json")` request: a parsed settings
document, a non-ok HTTP response, or a failed fetch / unparsable body. -/
inductive FetchOutcome
  | ok (s : Settings)
  | httpNotOk
  | failed
deriving Repr

/-- Settings value `app.js` ends up with after boot: the parsed document
when the response was ok, otherwise the variable SETTINGS stays null
(the try/catch logs and continues). -/
def appJs_settings : FetchOutcome → Option Settings
  | FetchOutcome.ok s => some s
  | FetchOutcome.httpNotOk => none
  | FetchOutcome.failed => none

/-- The `app.js` build path: the engine is invoked unconditionally with
whatever `appJs_settings` produced (null becomes `toPy(null)`). -/
def appJs_buildData (f : FetchOutcome) (files : List (String × List RawRecord))
    (td now : String) : BuildResult :=
  build_all files (appJs_settings f) td now

/-- `readSettings` of the minimal glue file:
`fetch("settings.json").then(r => r.json())` with no error handling, so
any fetch failure or unparsable body rejects. -/
def part001_readSettings : FetchOutcome → Except String Settings
  | FetchOutcome.ok s => Except.ok s
  | FetchOutcome.httpNotOk => Except.error "settings.json: body is not JSON"
  | FetchOutcome.failed => Except.error "settings.json fetch failed"

/-- The minimal glue file's `buildData`: it awaits `readSettings` before
injecting globals and running the engine, so a settings rejection
propagates and the engine is never invoked. -/
def part001_buildData (f : FetchOutcome) (files : List (String × List RawRecord))
    (td now : String) : Except String BuildResult :=
  match part001_readSettings f with
  | Except.error e => Except.error e
  | Except.ok s => Except.ok (build_all files (some s) td now)

/-- The `app.js` build-button guard `if (!files.length) return`: the
build proceeds exactly when at least one file is selected. -/
def appJs_guardAllows (numFiles : Nat) : Bool :=
  numFiles != 0

/-- The minimal glue file's run-button guard
`if (!files || files.length === 0) return`: the build proceeds exactly
when at least one file is selected. -/
def part001_guardAllows (numFiles : Nat) : Bool :=
  numFiles != 0

/-- JavaScript whitespace for `String.prototype.trim` (the whitespace
characters relevant here). -/
def jsIsWs (c : Char) : Bool :=
  c == ' ' || c == '\t' || c == '\n' || c == '\r' || c == '\x0b' || c == '\x0c'

/-- JavaScript `raw.trim()`: strip leading and trailing whitespace. -/
def jsTrim (s : String) : String :=
  String.mk (((s.data.dropWhile jsIsWs).reverse.dropWhile jsIsWs).reverse)

/-- The regular expression `^(\d{2})\/(\d{2})\/(\d{4})$` of
`getTargetDateISO`: exactly two digits, a slash, two digits, a slash,
four digits. -/
def matchesDDMMYYYY (s : String) : Bool :=
  match s.data with
  | [d1, d2, a, m1, m2, b, y1, y2, y3, y4] =>
    d1.isDigit && d2.isDigit && a == '/' && m1.isDigit && m2.isDigit && b == '/' &&
      y1.isDigit && y2.isDigit && y3.isDigit && y4.isDigit
  | _ => false

/-- The template rearrangement of `getTargetDateISO`:
DD/MM/YYYY becomes YYYY-MM-DD. -/
def rearrangeISO (s : String) : String :=
  match s.data with
  | [d1, d2, _, m1, m2, _, y1, y2, y3, y4] =>
    String.mk [y1, y2, y3, y4, '-', m1, m2, '-', d1, d2]
  | _ => ""

/-- `getTargetDateISO` of `app.js`: trim the input, return the
rearranged ISO date on a DD/MM/YYYY match and null otherwise. -/
def getTargetDateISO (raw : String) : Option String :=
  if matchesDDMMYYYY (jsTrim raw) then some (rearrangeISO (jsTrim raw)) else none

/-- The value `app.js` hands to the engine:
`getTargetDateISO() || ""`. -/
def appJs_targetDatePy (raw : String) : String :=
  (getTargetDateISO raw).getD ""

/-- The value the minimal glue file hands to the engine: the raw input
value, unconverted (`.value || ""` is the identity on strings). -/
def part001_targetDate (raw : String) : String :=
  raw

/-- Path of the engine module in the in-browser filesystem. -/
def enginePath : String := "/engine_pyodide.py"

/-- The placeholder the `app.js` boot writes to the engine module
path. -/
def enginePlaceholder : String := "REPLACE_WITH_ENGINE_CODE_IF_EMBEDDING"

/-- `pyodide.FS.writeFile`: overwrite one path of the in-browser
filesystem (a map from path to file contents). -/
def writeFile (fs : String → Option String) (p c : String) : String → Option String :=
  fun q => if q == p then some c else fs q

/-- The `app.js` boot effect on the in-browser filesystem: after the
settings fetch (whatever its outcome, thanks to the try/catch) it
unconditionally writes the placeholder to the engine module path. -/
def appJs_boot (f : FetchOutcome) (fs : String → Option String) : String → Option String :=
  match f with
  | FetchOutcome.ok _ => writeFile fs enginePath enginePlaceholder
  | FetchOutcome.httpNotOk => writeFile fs enginePath enginePlaceholder
  | FetchOutcome.failed => writeFile fs enginePath enginePlaceholder

/-- The module source a build executes: the Python preamble reloads the
module when it is already in `sys.modules` and imports it otherwise, and
either way the interpreter reads the file at the engine module path. -/
def appJs_buildModuleSource (fs : String → Option String)
    (alreadyImported : Bool) : Option String :=
  match alreadyImported with
  | true => fs enginePath
  | false => fs enginePath

/-- The report elements of the page, as rendered HTML strings, plus the
status line. -/
structure PageState where
  summary : String
  vet : String
  swaps : String
  audit : String
  status : String
deriving DecidableEq, Repr

/-- The minimal glue file's run-button handler: on success it renders
all blocks and clears the audit block; on failure it only writes the
error to the status line, leaving every report element as it was. -/
def part001_runHandler (renderS renderV renderW : BuildResult → String)
    (prev : PageState) (outcome : Except String BuildResult) : PageState :=
  match outcome with
  | Except.ok data =>
    { summary := renderS data
      vet := renderV data
      swaps := renderW data
      audit := ""
      status := "Done." }
  | Except.error e =>
    { prev with status := "Error: " ++ e }

/-! Claim theorems. -/

/-- Claim C1, counterexample: the `app.js` call site does not use the
contracted `(files, settings, targetDate)` order — it passes the target
date second and the settings last. -/
theorem claim_C1_cex : appJs_callOrder ≠ contractOrder := by
  decide

/-- Claim C1, amended: the minimal glue file's call site passes the
contracted `(files, settings, targetDate)` order, while the `app.js`
call site passes `(files, targetDate, settings)`. -/
theorem claim_C1_amended :
    part001_callOrder = contractOrder
    ∧ appJs_callOrder = [BuildArg.files, BuildArg.targetDate, BuildArg.settings] :=
  ⟨rfl, rfl⟩

/-- Claim C2, counterexample: in `app.js` the structure handed to the
consumer carries the extra top-level field `engine_loaded` (and
`engine_version`), so it has seven top-level fields, not five. -/
theorem claim_C2_cex :
    "engine_loaded" ∈ appJs_resultKeys buildResultKeys
    ∧ "engine_loaded" ∉ buildResultKeys
    ∧ (appJs_resultKeys buildResultKeys).length = 7 := by
  decide

/-- Claim C2, amended: the minimal glue file hands the engine result to
its renderers with exactly the five contracted top-level fields, while
`app.js` adds the two extra top-level fields `engine_loaded` and
`engine_version` before its consumer sees the result. -/
theorem claim_C2_amended :
    appJs_resultKeys buildResultKeys =
      ["generated_at", "dept_summary", "presence_map", "vet_vto", "swaps",
        "engine_loaded", "engine_version"]
    ∧ part001_consumedKeys buildResultKeys =
      ["generated_at", "dept_summary", "presence_map", "vet_vto", "swaps"] := by
  decide

/-- Claim C3, counterexample: two invocations of the engine on
identical `(files, settings, targetDate)` but at different build-time
clock readings differ, because `generated_at` records the clock. -/
theorem claim_C3_cex :
    build_all [] none "" "2025-10-04T00:00:00" ≠ build_all [] none "" "2025-10-04T00:00:01" := by
  decide

/-- Claim C3, amended: for fixed `(files, settings, targetDate)` the
output is identical across invocations in every field except
`generated_at`, which is exactly the build-time clock reading. -/
theorem claim_C3_amended (files : List (String × List RawRecord)) (s : Option Settings)
    (td t1 t2 : String) :
    (build_all files s td t1).generated_at = t1
    ∧ (build_all files s td t1).dept_summary = (build_all files s td t2).dept_summary
    ∧ (build_all files s td t1).presence_map = (build_all files s td t2).presence_map
    ∧ (build_all files s td t1).vet_vto = (build_all files s td t2).vet_vto
    ∧ (build_all files s td t1).swaps = (build_all files s td t2).swaps :=
  ⟨rfl, rfl, rfl, rfl, rfl⟩

/-- Claim C4, counterexample: in the minimal glue file a failed
`settings.json` fetch rejects inside `buildData` before the engine is
invoked, so the build does not run to completion. -/
theorem claim_C4_cex :
    part001_buildData FetchOutcome.failed [] "" "2025-10-04T00:00:00"
      = Except.error "settings.json fetch failed" :=
  rfl

/-- Claim C4, amended: in `app.js` a missing or failed `settings.json`
leaves the settings null, the build still runs with a null settings
mapping, and the engine then treats every department code as unmapped
("unknown"); in the minimal glue file a failed settings fetch instead
aborts the build with an error before the engine is invoked. -/
theorem claim_C4_amended (files : List (String × List RawRecord)) (td now : String) :
    appJs_settings FetchOutcome.failed = none
    ∧ appJs_settings FetchOutcome.httpNotOk = none
    ∧ appJs_buildData FetchOutcome.failed files td now = build_all files none td now
    ∧ (∀ code : String, normalizeDept none code = "unknown")
    ∧ (∀ r : RawRecord, classify none r = Category.unknown)
    ∧ (∃ e : String, part001_buildData FetchOutcome.failed files td now = Except.error e) :=
  ⟨rfl, rfl, rfl, fun _ => rfl, fun _ => rfl, ⟨"settings.json fetch failed", rfl⟩⟩

/-- Claim C5: a failed build surfaces as a single structured error
message on the status line while every previously rendered report
element is left untouched, and a successful build replaces all report
elements with renders of the one complete result — never a partial
mix. -/
theorem claim_C5 (renderS renderV renderW : BuildResult → String)
    (prev : PageState) (e : String) (data : BuildResult) :
    (part001_runHandler renderS renderV renderW prev (Except.error e)).summary = prev.summary
    ∧ (part001_runHandler renderS renderV renderW prev (Except.error e)).vet = prev.vet
    ∧ (part001_runHandler renderS renderV renderW prev (Except.error e)).swaps = prev.swaps
    ∧ (part001_runHandler renderS renderV renderW prev (Except.error e)).audit = prev.audit
    ∧ (part001_runHandler renderS renderV renderW prev (Except.error e)).status = "Error: " ++ e
    ∧ part001_runHandler renderS renderV renderW prev (Except.ok data)
        = { summary := renderS data, vet := renderV data, swaps := renderW data,
            audit := "", status := "Done." } :=
  ⟨rfl, rfl, rfl, rfl, rfl, rfl⟩

/-- Summing the indicator of one element over a duplicate-free list
containing it gives one. -/
theorem sum_map_beq_indicator (ds : List String) (x : String)
    (hnd : ds.Nodup) (hx : x ∈ ds) :
    (ds.map (fun d => if x == d then (1 : Nat) else 0)).sum = 1 := by
  induction ds with
  | nil => cases hx
  | cons d ds ih =>
    rw [List.map_cons, List.sum_cons]
    rcases List.mem_cons.mp hx with h | h
    · subst h
      have hnotin : x ∉ ds := (List.nodup_cons.mp hnd).1
      have hz : (ds.map (fun d => if x == d then (1 : Nat) else 0)).sum = 0 := by
        apply List.sum_eq_zero
        intro y hy
        rcases List.mem_map.mp hy with ⟨d0, hd0, hval⟩
        have hne : x ≠ d0 := fun he => hnotin (he ▸ hd0)
        simpa [hne] using hval.symm
      rw [hz]
      simp
    · have hne : x ≠ d := fun he => (List.nodup_cons.mp hnd).1 (he ▸ h)
      rw [ih (List.nodup_cons.mp hnd).2 h]
      simp [hne]

/-- Pointwise sums distribute over a mapped list. -/
theorem sum_map_add_distrib (ds : List String) (g h : String → Nat) :
    (ds.map (fun d => g d + h d)).sum = (ds.map g).sum + (ds.map h).sum := by
  induction ds with
  | nil => simp
  | cons d ds ih => simp [ih]; omega

/-- Partition counting: grouping the rows by a key drawn from a
duplicate-free key list covering all rows and counting a predicate per
group sums to the total count of the predicate. -/
theorem countP_partition_sum (rows : List RawRecord) (f : RawRecord → String)
    (p : RawRecord → Bool) (ds : List String) (hnd : ds.Nodup)
    (hcov : ∀ r ∈ rows, f r ∈ ds) :
    (ds.map (fun d => rows.countP (fun r => f r == d && p r))).sum = rows.countP p := by
  induction rows with
  | nil => simp
  | cons r t ih =>
    have hcovt : ∀ x ∈ t, f x ∈ ds := fun x hx => hcov x (List.mem_cons_of_mem r hx)
    have hr : f r ∈ ds := hcov r (List.mem_cons_self r t)
    have step : ∀ d : String,
        List.countP (fun x => f x == d && p x) (r :: t)
          = List.countP (fun x => f x == d && p x) t
            + (if f r == d && p r then 1 else 0) := by
      intro d
      rw [List.countP_cons]
    calc (ds.map (fun d => List.countP (fun x => f x == d && p x) (r :: t))).sum
        = (ds.map (fun d => List.countP (fun x => f x == d && p x) t
            + (if f r == d && p r then 1 else 0))).sum := by
          apply congrArg
          apply List.map_congr_left
          intro d _
          exact step d
      _ = (ds.map (fun d => List.countP (fun x => f x == d && p x) t)).sum
            + (ds.map (fun d => if f r == d && p r then 1 else 0)).sum :=
          sum_map_add_distrib ds _ _
      _ = List.countP p t + (if p r then 1 else 0) := by
          rw [ih hcovt]
          apply congrArg
          by_cases hp : p r
          · simp only [hp, Bool.and_true, if_pos]
            exact sum_map_beq_indicator ds (f r) hnd hr
          · simp [hp]
      _ = List.countP p (r :: t) := (List.countP_cons p r t).symm

/-- Every department key occurring among the regular rows occurs in the
summary key list. -/
theorem regular_dept_mem_summaryDepts (s : Option Settings) (rows : List RawRecord)
    (td : String) :
    ∀ r ∈ regularRows s rows td, normalizeDept s r.dept_id ∈ summaryDepts s rows td := by
  intro r hr
  have hdated : r ∈ dateFilter td rows := List.mem_of_mem_filter hr
  exact List.mem_dedup.mpr (List.mem_map.mpr ⟨r, hdated, rfl⟩)

/-- Claim C6: in every BuildResult, each department's regular present
count is at most its regular expected count, and the per-department
present counts of the summary sum to the total number of
presence-flagged regular-attendance records for the target date. -/
theorem claim_C6 (files : List (String × List RawRecord)) (s : Option Settings)
    (td now : String) :
    (∀ d : String, (deptCounts s (allRows files) td d).regular_present
        ≤ (deptCounts s (allRows files) td d).regular_expected)
    ∧ ((build_all files s td now).dept_summary.map
        (fun e => e.2.regular_present)).sum
      = (regularRows s (allRows files) td).countP (fun r => r.present) := by
  constructor
  · intro d
    show regularPresent s (allRows files) td d ≤ regularExpected s (allRows files) td d
    apply List.countP_mono_left
    intro r _ h
    exact ((Bool.and_eq_true _ _).mp h).1
  · have hmap : (build_all files s td now).dept_summary.map (fun e => e.2.regular_present)
        = (summaryDepts s (allRows files) td).map
            (fun d => regularPresent s (allRows files) td d) := by
      show ((summaryDepts s (allRows files) td).map
          (fun d => (d, deptCounts s (allRows files) td d))).map
            (fun e => e.2.regular_present) = _
      rw [List.map_map]
      rfl
    rw [hmap]
    exact countP_partition_sum (regularRows s (allRows files) td)
      (fun r => normalizeDept s r.dept_id) (fun r => r.present)
      (summaryDepts s (allRows files) td)
      (List.nodup_dedup _)
      (regular_dept_mem_summaryDepts s (allRows files) td)

/-- Splitting a row list by its classification: the five bucket lengths
sum back to the length of the list. -/
theorem classify_partition_length (s : Option Settings) (rows : List RawRecord) :
    rows.length
      = (bucket s rows Category.regular).length + (bucket s rows Category.vet).length
        + (bucket s rows Category.vto).length + (bucket s rows Category.swap).length
        + (bucket s rows Category.unknown).length := by
  induction rows with
  | nil => simp [bucket]
  | cons r t ih =>
    simp only [bucket, List.filter_cons, List.length_cons] at ih ⊢
    cases h : classify s r <;> simp [h] <;> omega

/-- Claim C7: classification is a total function into the five buckets,
so every record lands in exactly one of regular / VET / VTO / swap /
unknown and the bucket sizes sum to the input size; a record whose
department code is absent from the settings mapping lands in the
unknown bucket (the build never fails on it — the engine is a total
function). -/
theorem claim_C7 (s : Option Settings) (rows : List RawRecord) :
    (rows.length
      = (bucket s rows Category.regular).length + (bucket s rows Category.vet).length
        + (bucket s rows Category.vto).length + (bucket s rows Category.swap).length
        + (bucket s rows Category.unknown).length)
    ∧ (∀ st : Settings, ∀ r : RawRecord,
        lookupDept (some st) r.dept_id = none → classify (some st) r = Category.unknown) := by
  constructor
  · exact classify_partition_length s rows
  · intro st r h
    simp [classify, h]

/-- Claim C7 witness: a concrete record whose department code "D9" is
absent from a concrete settings mapping is classified into the unknown
bucket, and the partition equation holds on that one-record input. -/
theorem claim_C7_witness :
    ((([⟨"E1", "D9", "M1", "AMZN", "2025-10-04", "", "", true, false⟩] : List RawRecord).length
      = (bucket (some ⟨[("D1", "Pick")], [], [], []⟩)
          [⟨"E1", "D9", "M1", "AMZN", "2025-10-04", "", "", true, false⟩] Category.regular).length
        + (bucket (some ⟨[("D1", "Pick")], [], [], []⟩)
            [⟨"E1", "D9", "M1", "AMZN", "2025-10-04", "", "", true, false⟩] Category.vet).length
        + (bucket (some ⟨[("D1", "Pick")], [], [], []⟩)
            [⟨"E1", "D9", "M1", "AMZN", "2025-10-04", "", "", true, false⟩] Category.vto).length
        + (bucket (some ⟨[("D1", "Pick")], [], [], []⟩)
            [⟨"E1", "D9", "M1", "AMZN", "2025-10-04", "", "", true, false⟩] Category.swap).length
        + (bucket (some ⟨[("D1", "Pick")], [], [], []⟩)
            [⟨"E1", "D9", "M1", "AMZN", "2025-10-04", "", "", true, false⟩] Category.unknown).length)
    ∧ classify (some ⟨[("D1", "Pick")], [], [], []⟩)
        ⟨"E1", "D9", "M1", "AMZN", "2025-10-04", "", "", true, false⟩ = Category.unknown) :=
  ⟨(claim_C7 (some ⟨[("D1", "Pick")], [], [], []⟩)
      [⟨"E1", "D9", "M1", "AMZN", "2025-10-04", "", "", true, false⟩]).1,
   (claim_C7 (some ⟨[("D1", "Pick")], [], [], []⟩)
      [⟨"E1", "D9", "M1", "AMZN", "2025-10-04", "", "", true, false⟩]).2
      ⟨[("D1", "Pick")], [], [], []⟩
      ⟨"E1", "D9", "M1", "AMZN", "2025-10-04", "", "", true, false⟩ (by decide)⟩

/-- Claim C8, counterexample: both front-end guards let a build proceed
with a single selected file, which is outside the claimed 3–6 bound. -/
theorem claim_C8_cex :
    appJs_guardAllows 1 = true ∧ part001_guardAllows 1 = true ∧ ¬ (3 ≤ 1) := by
  decide

/-- Claim C8, amended: each front-end guard enforces only that at least
one file is selected; any positive number of row-sets reaches the
engine. -/
theorem claim_C8_amended (n : Nat) :
    (appJs_guardAllows n = true ↔ 1 ≤ n) ∧ (part001_guardAllows n = true ↔ 1 ≤ n) := by
  simp [appJs_guardAllows, part001_guardAllows, Nat.one_le_iff_ne_zero]

/-- Claim C9: `getTargetDateISO` returns a value exactly when the
trimmed input matches the DD/MM/YYYY shape, in which case the value is
the rearranged YYYY-MM-DD string; every other input (including one
already in YYYY-MM-DD form) yields null, so the engine receives the
empty string for it; the minimal glue file forwards the raw input value
unconverted. -/
theorem claim_C9 (raw v : String) (d1 d2 m1 m2 y1 y2 y3 y4 : Char) :
    ((getTargetDateISO raw).isSome = matchesDDMMYYYY (jsTrim raw))
    ∧ (jsTrim raw = String.mk [d1, d2, '/', m1, m2, '/', y1, y2, y3, y4] →
        d1.isDigit = true → d2.isDigit = true → m1.isDigit = true → m2.isDigit = true →
        y1.isDigit = true → y2.isDigit = true → y3.isDigit = true → y4.isDigit = true →
        getTargetDateISO raw
          = some (String.mk [y1, y2, y3, y4, '-', m1, m2, '-', d1, d2]))
    ∧ getTargetDateISO "2025-10-04" = none
    ∧ appJs_targetDatePy "2025-10-04" = ""
    ∧ part001_targetDate v = v := by
  refine ⟨?_, ?_, by decide, by decide, rfl⟩
  · by_cases h : matchesDDMMYYYY (jsTrim raw) <;> simp [getTargetDateISO, h]
  · intro he h1 h2 h3 h4 h5 h6 h7 h8
    simp [getTargetDateISO, he, matchesDDMMYYYY, rearrangeISO,
      h1, h2, h3, h4, h5, h6, h7, h8]

/-- Claim C9 witness: the concrete input " 04/10/2025 " trims to a
DD/MM/YYYY match and converts to "2025-10-04", while the already-ISO
input "2025-10-04" makes the engine receive the empty string. -/
theorem claim_C9_witness :
    getTargetDateISO " 04/10/2025 " = some "2025-10-04"
    ∧ appJs_targetDatePy "2025-10-04" = "" := by
  have h := claim_C9 " 04/10/2025 " "" '0' '4' '1' '0' '2' '0' '2' '5'
  have h2 := h.2.1 (by decide) (by decide) (by decide) (by decide) (by decide)
    (by decide) (by decide) (by decide) (by decide)
  exact ⟨h2, h.2.2.2.1⟩

/-- Claim C10: the `app.js` boot writes the fixed placeholder string to
`/engine_pyodide.py` regardless of the settings-fetch outcome and of the
prior contents of that path, and every build (first import or reload
alike) executes exactly the module source currently stored at that
path — hence, after boot, the placeholder. -/
theorem claim_C10 (f : FetchOutcome) (fs : String → Option String) (b : Bool) :
    appJs_boot f fs enginePath = some enginePlaceholder
    ∧ appJs_buildModuleSource (appJs_boot f fs) b = some enginePlaceholder
    ∧ appJs_buildModuleSource fs b = fs enginePath := by
  cases f <;> cases b <;>
    simp [appJs_boot, appJs_buildModuleSource, writeFile]

end Phoenix
